import Mathlib

/-!
Verification model of the Ternoa NFT / TEE pallets.

The repository ships the pallets' test suites (`nft/src/tests/extrinsics.rs`,
`tee/src/tests/extrinsics.rs`); the extrinsic bodies themselves are not part
of the sources at hand, so every operation below is modelled from the
specification's data model, guard tables and protocol rules, with the check
order and the exact error/event vocabulary taken from the test files.
Machine integers of the chain (ids, balances, fees) are modelled as `Nat`;
account ids, byte blobs and URIs are opaque and also modelled as `Nat`.
Every operation is a total function `... → Except Err Chain`: an `Except.ok`
carries the complete post-state, an `Except.error` carries the named
rejection, and `applyOp` realises the chain's transactional semantics
(a failing call leaves the state untouched).
-/

namespace Ternoa

/-- Runtime configuration constants of the two pallets (mock values of the
test runtime are particular instances). -/
structure Config where
  collectionSizeLimit : Nat
  clusterSize : Nat
  existentialDeposit : Nat
  unregistrationLimit : Nat
  deriving Repr, DecidableEq

/-- The nine independent lifecycle flags of an item, in the positional order
of `NFTState::new` used throughout the test file. -/
structure NFTState where
  is_capsule : Bool
  is_listed : Bool
  is_secret : Bool
  is_delegated : Bool
  is_soulbound : Bool
  is_syncing_secret : Bool
  is_rented : Bool
  is_syncing_capsule : Bool
  is_in_transmission : Bool
  deriving Repr, DecidableEq

/-- A fresh state: every flag false except possibly `is_soulbound`. -/
def NFTState.newDefault (soulbound : Bool) : NFTState :=
  ⟨false, false, false, false, soulbound, false, false, false, false⟩

/-- An item record: owner, immutable creator, royalty, optional collection
back-reference, opaque off-chain payload reference and the flag set. -/
structure NFTData where
  owner : Nat
  creator : Nat
  offchain_data : Nat
  royalty : Nat
  collection_id : Option Nat
  state : NFTState
  deriving Repr, DecidableEq

/-- A collection record: owner, opaque metadata, optional one-shot size
limit, closed flag and the ordered member list. -/
structure Collection where
  owner : Nat
  offchain_data : Nat
  limit : Option Nat
  is_closed : Bool
  nfts : List Nat
  deriving Repr, DecidableEq

/-- An open shard-sync session: the cluster snapshot (fixed by the first
acknowledging enclave) and the operators that have acknowledged so far. -/
structure SyncSession where
  clusterId : Nat
  ackedBy : List Nat
  deriving Repr, DecidableEq

/-- An enclave identity: network address and API reference. -/
structure Enclave where
  enclave_address : Nat
  api_uri : Nat
  deriving Repr, DecidableEq

/-- A cluster: the ordered list of assigned operator accounts. -/
structure Cluster where
  enclaves : List Nat
  deriving Repr, DecidableEq

/-- Origin of an extrinsic call: a signed account or the root origin. -/
inductive Origin where
  | signed (account : Nat)
  | root
  deriving Repr, DecidableEq

/-- The named rejections of both pallets, plus the balance errors of the
ledger collaborator; names follow the test files. -/
inductive Err where
  | NFTNotFound
  | NotTheNFTOwner
  | NotTheNFTCreator
  | CannotTransferNFTsToYourself
  | CannotTransferListedNFTs
  | CannotTransferDelegatedNFTs
  | CannotTransferNotCreatedSoulboundNFTs
  | CannotTransferNotSyncedSecretNFTs
  | CannotTransferRentedNFTs
  | CannotTransferNotSyncedCapsules
  | CannotTransferNFTsInTransmission
  | CannotBurnListedNFTs
  | CannotBurnDelegatedNFTs
  | CannotBurnRentedNFTs
  | CannotBurnNFTsInTransmission
  | CannotDelegateListedNFTs
  | CannotDelegateRentedNFTs
  | CannotDelegateSyncingNFTs
  | CannotDelegateSyncingCapsules
  | CannotDelegateNFTsInTransmission
  | CannotSetRoyaltyForListedNFTs
  | CannotSetRoyaltyForDelegatedNFTs
  | CannotSetRoyaltyForRentedNFTs
  | CannotSetRoyaltyForSyncingNFTs
  | CannotSetRoyaltyForSyncingCapsules
  | CannotSetRoyaltyForNFTsInTransmission
  | CollectionNotFound
  | NotTheCollectionOwner
  | CollectionIsClosed
  | CollectionHasReachedLimit
  | CollectionLimitAlreadySet
  | CollectionHasTooManyNFTs
  | CollectionLimitExceededMaximumAllowed
  | CollectionIsNotEmpty
  | NFTBelongToACollection
  | CannotAddSecretToListedNFTs
  | CannotAddSecretToSecretNFTs
  | CannotAddSecretToRentedNFTs
  | CannotAddSecretToDelegatedNFTs
  | CannotAddSecretToSyncingCapsules
  | CannotAddSecretToNFTsInTransmission
  | NotARegisteredEnclave
  | NFTIsNotSecret
  | NFTAlreadySynced
  | EnclaveAlreadyAddedShard
  | ShareNotFromValidCluster
  | NFTIsNotCapsule
  | CannotConvertListedNFTs
  | CannotConvertCapsules
  | CannotConvertRentedNFTs
  | CannotConvertDelegatedNFTs
  | CannotConvertSyncingNFTs
  | CannotConvertNFTsInTransmission
  | CannotSetOffchainDataForListedNFTs
  | CannotSetOffchainDataForRentedNFTs
  | CannotSetOffchainDataForDelegatedNFTs
  | CannotSetOffchainDataForSyncingNFTs
  | CannotSetOffchainDataForSyncingCapsules
  | CannotChangeKeyForListedNFTs
  | CannotChangeKeyForRentedNFTs
  | CannotChangeKeyForDelegatedNFTs
  | CannotChangeKeyForSyncingNFTs
  | CannotChangeKeyForSyncingCapsules
  | CannotChangeKeyForNFTsInTransmission
  | OperatorAndEnclaveAreSame
  | RegistrationAlreadyExists
  | OperatorAlreadyExists
  | EnclaveAddressAlreadyExists
  | RegistrationNotFound
  | UnregistrationAlreadyExists
  | UnregistrationLimitReached
  | UpdateRequestAlreadyExists
  | UpdateRequestNotFound
  | UpdateProhibitedForUnassignedEnclave
  | EnclaveNotFound
  | ClusterIdNotFound
  | ClusterNotFound
  | ClusterIsFull
  | ClusterIsNotEmpty
  | BadOrigin
  | InsufficientBalance
  | KeepAlive
  deriving Repr, DecidableEq

/-- Domain events, with the payload fields the tests inspect. -/
inductive Event where
  | NFTCreated (nft_id owner : Nat)
  | NFTBurned (nft_id : Nat)
  | NFTTransferred (nft_id sender recipient : Nat)
  | NFTDelegated (nft_id : Nat) (recipient : Option Nat)
  | NFTRoyaltySet (nft_id royalty : Nat)
  | NFTMintFeeSet (fee : Nat)
  | SecretNFTMintFeeSet (fee : Nat)
  | CapsuleMintFeeSet (fee : Nat)
  | CollectionCreated (collection_id owner : Nat)
  | CollectionBurned (collection_id : Nat)
  | CollectionClosed (collection_id : Nat)
  | CollectionLimited (collection_id limit : Nat)
  | CollectionOffchainDataSet (collection_id : Nat)
  | NFTAddedToCollection (nft_id collection_id : Nat)
  | SecretAddedToNFT (nft_id : Nat)
  | ShardAdded (nft_id enclave : Nat)
  | SecretNFTSynced (nft_id : Nat)
  | NFTConvertedToCapsule (nft_id : Nat)
  | CapsuleOffchainDataSet (nft_id : Nat)
  | CapsuleShardAdded (nft_id enclave : Nat)
  | CapsuleSynced (nft_id : Nat)
  | CapsuleKeyUpdateNotified (nft_id : Nat)
  | EnclaveAddedForRegistration (operator enclave_address : Nat)
  | RegistrationRemoved (operator : Nat)
  | MovedForUpdate (operator new_enclave_address : Nat)
  | UpdateRequestCancelled (operator : Nat)
  | UpdateRequestRemoved (operator : Nat)
  | MovedForUnregistration (operator : Nat)
  | EnclaveAssigned (operator cluster_id : Nat)
  | EnclaveRemoved (operator : Nat)
  | EnclaveUpdated (operator new_enclave_address : Nat)
  | ClusterAdded (cluster_id : Nat)
  | ClusterRemoved (cluster_id : Nat)
  deriving Repr, DecidableEq

/-- The whole observable chain state of the two pallets and the balances
ledger: every storage item of the test files appears as one field. -/
structure Chain where
  nextNFTId : Nat
  nfts : Nat → Option NFTData
  delegatedNFTs : Nat → Option Nat
  secretOffchain : Nat → Option Nat
  secretShards : Nat → Option SyncSession
  capsuleOffchain : Nat → Option Nat
  capsuleShards : Nat → Option SyncSession
  nextCollectionId : Nat
  collections : Nat → Option Collection
  nftMintFee : Nat
  secretNftMintFee : Nat
  capsuleMintFee : Nat
  balances : Nat → Nat
  enclaveRegistrations : Nat → Option Enclave
  enclaveUpdates : Nat → Option Enclave
  enclaveUnregistrations : List Nat
  enclaveData : Nat → Option Enclave
  enclaveAccountOperator : Nat → Option Nat
  enclaveClusterId : Nat → Option Nat
  nextClusterId : Nat
  clusterData : Nat → Option Cluster
  events : List Event

/-- Point update of a `Nat`-keyed partial map. -/
def mupdate {α : Type} (f : Nat → Option α) (k : Nat) (v : Option α) :
    Nat → Option α :=
  fun i => if i = k then v else f i

/-- Point update of the balances ledger. -/
def bupdate (f : Nat → Nat) (k : Nat) (v : Nat) : Nat → Nat :=
  fun i => if i = k then v else f i

/-- Genesis: empty storages, zero balances, default fees. -/
def genesisChain : Chain where
  nextNFTId := 0
  nfts := fun _ => none
  delegatedNFTs := fun _ => none
  secretOffchain := fun _ => none
  secretShards := fun _ => none
  capsuleOffchain := fun _ => none
  capsuleShards := fun _ => none
  nextCollectionId := 0
  collections := fun _ => none
  nftMintFee := 10
  secretNftMintFee := 75
  capsuleMintFee := 100
  balances := fun _ => 0
  enclaveRegistrations := fun _ => none
  enclaveUpdates := fun _ => none
  enclaveUnregistrations := []
  enclaveData := fun _ => none
  enclaveAccountOperator := fun _ => none
  enclaveClusterId := fun _ => none
  nextClusterId := 0
  clusterData := fun _ => none
  events := []

/-- Modelled from the spec: the ledger collaborator's `debit(account,
amount, keep_alive = true)` — fails with `InsufficientBalance` when the
balance cannot cover the amount and with `KeepAlive` when paying would push
the account below the existential deposit. -/
def debitKeepAlive (cfg : Config) (bal amount : Nat) : Except Err Nat :=
  if bal < amount then .error .InsufficientBalance
  else if bal - amount < cfg.existentialDeposit then .error .KeepAlive
  else .ok (bal - amount)

/-- The effective size bound of a collection: its own limit when set,
otherwise the global maximum. -/
def effectiveLimit (cfg : Config) (col : Collection) : Nat :=
  col.limit.getD cfg.collectionSizeLimit

end Ternoa

namespace Ternoa

/-- Modelled from the spec: the collection-side preconditions of minting
into a collection — the caller owns it, it is not closed and it is below
its effective size bound. -/
def collectionGuards (cfg : Config) (s : Chain) (caller : Nat) :
    Option Nat → Except Err Unit
  | none => .ok ()
  | some cid =>
    match s.collections cid with
    | none => .error .CollectionNotFound
    | some col =>
      if col.owner ≠ caller then .error .NotTheCollectionOwner
      else if col.is_closed then .error .CollectionIsClosed
      else if effectiveLimit cfg col ≤ col.nfts.length then
        .error .CollectionHasReachedLimit
      else .ok ()

/-- Append a freshly minted id to its collection's member list. -/
def appendToCollection (s : Chain) (collection_id : Option Nat) (nid : Nat) :
    Nat → Option Collection :=
  match collection_id with
  | some cid =>
    match s.collections cid with
    | some col => mupdate s.collections cid (some { col with nfts := col.nfts ++ [nid] })
    | none => s.collections
  | none => s.collections

/-- Modelled from the spec: `create_nft` — mint a new item for the caller,
charging the mint fee (keep-alive) and optionally appending the item to a
collection the caller owns. -/
def create_nft (cfg : Config) (s : Chain) (origin : Origin)
    (offchain royalty : Nat) (collection_id : Option Nat) (soulbound : Bool) :
    Except Err Chain :=
  match origin with
  | .root => .error .BadOrigin
  | .signed caller =>
    match collectionGuards cfg s caller collection_id with
    | .error e => .error e
    | .ok _ =>
      match debitKeepAlive cfg (s.balances caller) s.nftMintFee with
      | .error e => .error e
      | .ok newBal =>
        let nid := s.nextNFTId
        let data : NFTData :=
          ⟨caller, caller, offchain, royalty, collection_id, NFTState.newDefault soulbound⟩
        .ok { s with
          nextNFTId := nid + 1,
          nfts := mupdate s.nfts nid (some data),
          collections := appendToCollection s collection_id nid,
          balances := bupdate s.balances caller newBal,
          events := s.events ++ [.NFTCreated nid caller] }

/-- Modelled from the spec: `burn_nft` — delete the caller's item together
with its delegation record, both payload records and any open sync session,
and drop its id from its collection's member list; forbidden while listed,
delegated, rented or in transmission. -/
def burn_nft (s : Chain) (origin : Origin) (nft_id : Nat) : Except Err Chain :=
  match origin with
  | .root => .error .BadOrigin
  | .signed caller =>
    match s.nfts nft_id with
    | none => .error .NFTNotFound
    | some nft =>
      if nft.owner ≠ caller then .error .NotTheNFTOwner
      else if nft.state.is_listed then .error .CannotBurnListedNFTs
      else if nft.state.is_delegated then .error .CannotBurnDelegatedNFTs
      else if nft.state.is_rented then .error .CannotBurnRentedNFTs
      else if nft.state.is_in_transmission then .error .CannotBurnNFTsInTransmission
      else
        .ok { s with
          nfts := mupdate s.nfts nft_id none,
          delegatedNFTs := mupdate s.delegatedNFTs nft_id none,
          secretOffchain := mupdate s.secretOffchain nft_id none,
          secretShards := mupdate s.secretShards nft_id none,
          capsuleOffchain := mupdate s.capsuleOffchain nft_id none,
          capsuleShards := mupdate s.capsuleShards nft_id none,
          collections := (match nft.collection_id with
            | some cid =>
              (match s.collections cid with
               | some col =>
                 mupdate s.collections cid
                   (some { col with nfts := col.nfts.filter (fun i => i ≠ nft_id) })
               | none => s.collections)
            | none => s.collections),
          events := s.events ++ [.NFTBurned nft_id] }

/-- Modelled from the spec: `transfer_nft` — reassign ownership; the four
access markers (listed, delegated, rented, in transmission) are checked in
the order of the specification's guard table, followed by the
soulbound-unless-creator rule and the two unsynced-payload guards. -/
def transfer_nft (s : Chain) (origin : Origin) (nft_id recipient : Nat) :
    Except Err Chain :=
  match origin with
  | .root => .error .BadOrigin
  | .signed caller =>
    match s.nfts nft_id with
    | none => .error .NFTNotFound
    | some nft =>
      if nft.owner ≠ caller then .error .NotTheNFTOwner
      else if recipient = nft.owner then .error .CannotTransferNFTsToYourself
      else if nft.state.is_listed then .error .CannotTransferListedNFTs
      else if nft.state.is_delegated then .error .CannotTransferDelegatedNFTs
      else if nft.state.is_rented then .error .CannotTransferRentedNFTs
      else if nft.state.is_in_transmission then .error .CannotTransferNFTsInTransmission
      else if nft.state.is_soulbound ∧ nft.creator ≠ caller then
        .error .CannotTransferNotCreatedSoulboundNFTs
      else if nft.state.is_secret ∧ nft.state.is_syncing_secret then
        .error .CannotTransferNotSyncedSecretNFTs
      else if nft.state.is_capsule ∧ nft.state.is_syncing_capsule then
        .error .CannotTransferNotSyncedCapsules
      else
        .ok { s with
          nfts := mupdate s.nfts nft_id (some { nft with owner := recipient }),
          events := s.events ++ [.NFTTransferred nft_id caller recipient] }

/-- Modelled from the spec: `delegate_nft` — set or clear the delegation
viewer and the `is_delegated` flag. -/
def delegate_nft (s : Chain) (origin : Origin) (nft_id : Nat)
    (recipient : Option Nat) : Except Err Chain :=
  match origin with
  | .root => .error .BadOrigin
  | .signed caller =>
    match s.nfts nft_id with
    | none => .error .NFTNotFound
    | some nft =>
      if nft.owner ≠ caller then .error .NotTheNFTOwner
      else if nft.state.is_listed then .error .CannotDelegateListedNFTs
      else if nft.state.is_rented then .error .CannotDelegateRentedNFTs
      else if nft.state.is_syncing_secret then .error .CannotDelegateSyncingNFTs
      else if nft.state.is_capsule ∧ nft.state.is_syncing_capsule then
        .error .CannotDelegateSyncingCapsules
      else if nft.state.is_in_transmission then .error .CannotDelegateNFTsInTransmission
      else
        .ok { s with
          nfts := mupdate s.nfts nft_id
            (some { nft with state := { nft.state with is_delegated := recipient.isSome } }),
          delegatedNFTs := mupdate s.delegatedNFTs nft_id recipient,
          events := s.events ++ [.NFTDelegated nft_id recipient] }

/-- Modelled from the spec: `set_royalty` — creator-only royalty update; the
ownership check precedes the creator check, which precedes the flag guards. -/
def set_royalty (s : Chain) (origin : Origin) (nft_id royalty : Nat) :
    Except Err Chain :=
  match origin with
  | .root => .error .BadOrigin
  | .signed caller =>
    match s.nfts nft_id with
    | none => .error .NFTNotFound
    | some nft =>
      if nft.owner ≠ caller then .error .NotTheNFTOwner
      else if nft.creator ≠ caller then .error .NotTheNFTCreator
      else if nft.state.is_listed then .error .CannotSetRoyaltyForListedNFTs
      else if nft.state.is_delegated then .error .CannotSetRoyaltyForDelegatedNFTs
      else if nft.state.is_rented then .error .CannotSetRoyaltyForRentedNFTs
      else if nft.state.is_syncing_secret then .error .CannotSetRoyaltyForSyncingNFTs
      else if nft.state.is_capsule ∧ nft.state.is_syncing_capsule then
        .error .CannotSetRoyaltyForSyncingCapsules
      else if nft.state.is_in_transmission then
        .error .CannotSetRoyaltyForNFTsInTransmission
      else
        .ok { s with
          nfts := mupdate s.nfts nft_id (some { nft with royalty := royalty }),
          events := s.events ++ [.NFTRoyaltySet nft_id royalty] }

/-- Modelled from the spec: administrative mint-fee update (root only). -/
def set_nft_mint_fee (s : Chain) (origin : Origin) (fee : Nat) :
    Except Err Chain :=
  match origin with
  | .signed _ => .error .BadOrigin
  | .root =>
    .ok { s with nftMintFee := fee, events := s.events ++ [.NFTMintFeeSet fee] }

/-- Modelled from the spec: `create_collection` — new empty collection whose
optional limit may not exceed the global maximum. -/
def create_collection (cfg : Config) (s : Chain) (origin : Origin)
    (offchain : Nat) (limit : Option Nat) : Except Err Chain :=
  match origin with
  | .root => .error .BadOrigin
  | .signed caller =>
    match limit with
    | some l =>
      if cfg.collectionSizeLimit < l then .error .CollectionLimitExceededMaximumAllowed
      else
        .ok { s with
          nextCollectionId := s.nextCollectionId + 1,
          collections := mupdate s.collections s.nextCollectionId
            (some ⟨caller, offchain, limit, false, []⟩),
          events := s.events ++ [.CollectionCreated s.nextCollectionId caller] }
    | none =>
      .ok { s with
        nextCollectionId := s.nextCollectionId + 1,
        collections := mupdate s.collections s.nextCollectionId
          (some ⟨caller, offchain, none, false, []⟩),
        events := s.events ++ [.CollectionCreated s.nextCollectionId caller] }

/-- Modelled from the spec: `burn_collection` — delete an empty collection
owned by the caller. -/
def burn_collection (s : Chain) (origin : Origin) (cid : Nat) :
    Except Err Chain :=
  match origin with
  | .root => .error .BadOrigin
  | .signed caller =>
    match s.collections cid with
    | none => .error .CollectionNotFound
    | some col =>
      if col.owner ≠ caller then .error .NotTheCollectionOwner
      else if col.nfts ≠ [] then .error .CollectionIsNotEmpty
      else
        .ok { s with
          collections := mupdate s.collections cid none,
          events := s.events ++ [.CollectionBurned cid] }

/-- Modelled from the spec: `close_collection` — irreversibly forbid new
members. -/
def close_collection (s : Chain) (origin : Origin) (cid : Nat) :
    Except Err Chain :=
  match origin with
  | .root => .error .BadOrigin
  | .signed caller =>
    match s.collections cid with
    | none => .error .CollectionNotFound
    | some col =>
      if col.owner ≠ caller then .error .NotTheCollectionOwner
      else
        .ok { s with
          collections := mupdate s.collections cid (some { col with is_closed := true }),
          events := s.events ++ [.CollectionClosed cid] }

/-- Modelled from the spec: `limit_collection` — one-shot size limit: fails
when a limit was already set, when the collection is closed, when the
requested limit is below the current member count, or when it exceeds the
global maximum. -/
def limit_collection (cfg : Config) (s : Chain) (origin : Origin)
    (cid limit : Nat) : Except Err Chain :=
  match origin with
  | .root => .error .BadOrigin
  | .signed caller =>
    match s.collections cid with
    | none => .error .CollectionNotFound
    | some col =>
      if col.owner ≠ caller then .error .NotTheCollectionOwner
      else if col.limit.isSome then .error .CollectionLimitAlreadySet
      else if col.is_closed then .error .CollectionIsClosed
      else if limit < col.nfts.length then .error .CollectionHasTooManyNFTs
      else if cfg.collectionSizeLimit < limit then
        .error .CollectionLimitExceededMaximumAllowed
      else
        .ok { s with
          collections := mupdate s.collections cid (some { col with limit := some limit }),
          events := s.events ++ [.CollectionLimited cid limit] }

/-- Modelled from the spec: `add_nft_to_collection` — append an unaffiliated
item of the caller to a caller-owned, open, non-full collection. -/
def add_nft_to_collection (cfg : Config) (s : Chain) (origin : Origin)
    (nft_id cid : Nat) : Except Err Chain :=
  match origin with
  | .root => .error .BadOrigin
  | .signed caller =>
    match s.collections cid with
    | none => .error .CollectionNotFound
    | some col =>
      if col.owner ≠ caller then .error .NotTheCollectionOwner
      else if col.is_closed then .error .CollectionIsClosed
      else if effectiveLimit cfg col ≤ col.nfts.length then
        .error .CollectionHasReachedLimit
      else
        match s.nfts nft_id with
        | none => .error .NFTNotFound
        | some nft =>
          if nft.owner ≠ caller then .error .NotTheNFTOwner
          else if nft.collection_id.isSome then .error .NFTBelongToACollection
          else
            .ok { s with
              nfts := mupdate s.nfts nft_id (some { nft with collection_id := some cid }),
              collections := mupdate s.collections cid
                (some { col with nfts := col.nfts ++ [nft_id] }),
              events := s.events ++ [.NFTAddedToCollection nft_id cid] }

/-- Modelled from the spec: `set_collection_offchaindata` — owner-only
metadata update. -/
def set_collection_offchaindata (s : Chain) (origin : Origin)
    (cid offchain : Nat) : Except Err Chain :=
  match origin with
  | .root => .error .BadOrigin
  | .signed caller =>
    match s.collections cid with
    | none => .error .CollectionNotFound
    | some col =>
      if col.owner ≠ caller then .error .NotTheCollectionOwner
      else
        .ok { s with
          collections := mupdate s.collections cid (some { col with offchain_data := offchain }),
          events := s.events ++ [.CollectionOffchainDataSet cid] }

end Ternoa

namespace Ternoa

/-- Modelled from the spec: `add_secret` — attach a secret payload to a
plain item of the caller, charge the secret mint fee, set `is_secret` and
`is_syncing_secret`, opening the hand-off; the already-secret payload-kind
check follows the flag guards. -/
def add_secret (cfg : Config) (s : Chain) (origin : Origin)
    (nft_id offchain : Nat) : Except Err Chain :=
  match origin with
  | .root => .error .BadOrigin
  | .signed caller =>
    match s.nfts nft_id with
    | none => .error .NFTNotFound
    | some nft =>
      if nft.owner ≠ caller then .error .NotTheNFTOwner
      else if nft.state.is_listed then .error .CannotAddSecretToListedNFTs
      else if nft.state.is_rented then .error .CannotAddSecretToRentedNFTs
      else if nft.state.is_delegated then .error .CannotAddSecretToDelegatedNFTs
      else if nft.state.is_capsule ∧ nft.state.is_syncing_capsule then
        .error .CannotAddSecretToSyncingCapsules
      else if nft.state.is_in_transmission then
        .error .CannotAddSecretToNFTsInTransmission
      else if nft.state.is_secret then .error .CannotAddSecretToSecretNFTs
      else
        match debitKeepAlive cfg (s.balances caller) s.secretNftMintFee with
        | .error e => .error e
        | .ok newBal =>
          .ok { s with
            nfts := mupdate s.nfts nft_id
              (some { nft with state :=
                { nft.state with is_secret := true, is_syncing_secret := true } }),
            secretOffchain := mupdate s.secretOffchain nft_id (some offchain),
            balances := bupdate s.balances caller newBal,
            events := s.events ++ [.SecretAddedToNFT nft_id] }

/-- Modelled from the spec: `create_secret_nft` — mint and attach a secret
in one atomic call; a combined upfront balance check precedes everything,
then both fees are charged keep-alive. -/
def create_secret_nft (cfg : Config) (s : Chain) (origin : Origin)
    (offchain secret_offchain royalty : Nat) (collection_id : Option Nat)
    (soulbound : Bool) : Except Err Chain :=
  match origin with
  | .root => .error .BadOrigin
  | .signed caller =>
    if s.balances caller < s.nftMintFee + s.secretNftMintFee then
      .error .InsufficientBalance
    else
      match collectionGuards cfg s caller collection_id with
      | .error e => .error e
      | .ok _ =>
        match debitKeepAlive cfg (s.balances caller)
            (s.nftMintFee + s.secretNftMintFee) with
        | .error e => .error e
        | .ok newBal =>
          let nid := s.nextNFTId
          let st := NFTState.newDefault soulbound
          let data : NFTData :=
            ⟨caller, caller, offchain, royalty, collection_id,
              { st with is_secret := true, is_syncing_secret := true }⟩
          .ok { s with
            nextNFTId := nid + 1,
            nfts := mupdate s.nfts nid (some data),
            secretOffchain := mupdate s.secretOffchain nid (some secret_offchain),
            collections := appendToCollection s collection_id nid,
            balances := bupdate s.balances caller newBal,
            events := s.events ++ [.NFTCreated nid caller, .SecretAddedToNFT nid] }

/-- Modelled from the spec: administrative secret-mint-fee update. -/
def set_secret_nft_mint_fee (s : Chain) (origin : Origin) (fee : Nat) :
    Except Err Chain :=
  match origin with
  | .signed _ => .error .BadOrigin
  | .root =>
    .ok { s with secretNftMintFee := fee, events := s.events ++ [.SecretNFTMintFeeSet fee] }

/-- Modelled from the spec: resolve the calling enclave address to its
`(cluster, operator)` pair through the registry's reverse indexes; `none`
for anything that is not a currently assigned enclave. -/
def ensure_enclave (s : Chain) (addr : Nat) : Option (Nat × Nat) :=
  match s.enclaveAccountOperator addr with
  | none => none
  | some operator =>
    match s.enclaveClusterId operator with
    | none => none
    | some c => some (c, operator)

/-- Equality of two operator lists viewed as finite sets. -/
def sameSet (a b : List Nat) : Bool :=
  a.all (fun x => b.contains x) && b.all (fun x => a.contains x)

/-- Live membership of a cluster (empty when the cluster is absent). -/
def clusterMembers (s : Chain) (c : Nat) : List Nat :=
  match s.clusterData c with
  | some cl => cl.enclaves
  | none => []

/-- Modelled from the spec: `add_secret_shard` — an assigned enclave
acknowledges the secret hand-off.  The first acknowledgment fixes the
session's cluster snapshot; a duplicate operator is rejected, an operator
from another cluster is rejected, and the session completes (record
deleted, flag cleared, synced event emitted last) exactly when the set of
distinct acknowledging operators equals the live membership of the
snapshotted cluster. -/
def add_secret_shard (s : Chain) (origin : Origin) (nft_id : Nat) :
    Except Err Chain :=
  match origin with
  | .root => .error .BadOrigin
  | .signed caller =>
    match ensure_enclave s caller with
    | none => .error .NotARegisteredEnclave
    | some (cluster_id, operator) =>
      match s.nfts nft_id with
      | none => .error .NFTNotFound
      | some nft =>
        if nft.state.is_secret = false then .error .NFTIsNotSecret
        else if nft.state.is_syncing_secret = false then .error .NFTAlreadySynced
        else
          let sess := (s.secretShards nft_id).getD ⟨cluster_id, []⟩
          if sess.ackedBy.contains operator then .error .EnclaveAlreadyAddedShard
          else if sess.clusterId ≠ cluster_id then .error .ShareNotFromValidCluster
          else
            let acked := sess.ackedBy ++ [operator]
            if sameSet acked (clusterMembers s sess.clusterId) then
              .ok { s with
                secretShards := mupdate s.secretShards nft_id none,
                nfts := mupdate s.nfts nft_id
                  (some { nft with state :=
                    { nft.state with is_syncing_secret := false } }),
                events := s.events ++ [.ShardAdded nft_id caller, .SecretNFTSynced nft_id] }
            else
              .ok { s with
                secretShards := mupdate s.secretShards nft_id (some ⟨sess.clusterId, acked⟩),
                events := s.events ++ [.ShardAdded nft_id caller] }

/-- Modelled from the spec: `convert_to_capsule` — turn a non-capsule item
into a capsule, charge the capsule fee, set `is_capsule` and
`is_syncing_capsule`, opening the hand-off. -/
def convert_to_capsule (cfg : Config) (s : Chain) (origin : Origin)
    (nft_id offchain : Nat) : Except Err Chain :=
  match origin with
  | .root => .error .BadOrigin
  | .signed caller =>
    match s.nfts nft_id with
    | none => .error .NFTNotFound
    | some nft =>
      if nft.owner ≠ caller then .error .NotTheNFTOwner
      else if nft.state.is_listed then .error .CannotConvertListedNFTs
      else if nft.state.is_rented then .error .CannotConvertRentedNFTs
      else if nft.state.is_delegated then .error .CannotConvertDelegatedNFTs
      else if nft.state.is_syncing_secret then .error .CannotConvertSyncingNFTs
      else if nft.state.is_in_transmission then .error .CannotConvertNFTsInTransmission
      else if nft.state.is_capsule then .error .CannotConvertCapsules
      else
        match debitKeepAlive cfg (s.balances caller) s.capsuleMintFee with
        | .error e => .error e
        | .ok newBal =>
          .ok { s with
            nfts := mupdate s.nfts nft_id
              (some { nft with state :=
                { nft.state with is_capsule := true, is_syncing_capsule := true } }),
            capsuleOffchain := mupdate s.capsuleOffchain nft_id (some offchain),
            balances := bupdate s.balances caller newBal,
            events := s.events ++ [.NFTConvertedToCapsule nft_id] }

/-- Modelled from the spec: `create_capsule` — mint directly as a capsule;
combined upfront balance check, then both fees charged keep-alive. -/
def create_capsule (cfg : Config) (s : Chain) (origin : Origin)
    (offchain capsule_offchain royalty : Nat) (collection_id : Option Nat)
    (soulbound : Bool) : Except Err Chain :=
  match origin with
  | .root => .error .BadOrigin
  | .signed caller =>
    if s.balances caller < s.nftMintFee + s.capsuleMintFee then
      .error .InsufficientBalance
    else
      match collectionGuards cfg s caller collection_id with
      | .error e => .error e
      | .ok _ =>
        match debitKeepAlive cfg (s.balances caller)
            (s.nftMintFee + s.capsuleMintFee) with
        | .error e => .error e
        | .ok newBal =>
          let nid := s.nextNFTId
          let st := NFTState.newDefault soulbound
          let data : NFTData :=
            ⟨caller, caller, offchain, royalty, collection_id,
              { st with is_capsule := true, is_syncing_capsule := true }⟩
          .ok { s with
            nextNFTId := nid + 1,
            nfts := mupdate s.nfts nid (some data),
            capsuleOffchain := mupdate s.capsuleOffchain nid (some capsule_offchain),
            collections := appendToCollection s collection_id nid,
            balances := bupdate s.balances caller newBal,
            events := s.events ++ [.NFTCreated nid caller, .NFTConvertedToCapsule nid] }

/-- Modelled from the spec: administrative capsule-mint-fee update. -/
def set_capsule_mint_fee (s : Chain) (origin : Origin) (fee : Nat) :
    Except Err Chain :=
  match origin with
  | .signed _ => .error .BadOrigin
  | .root =>
    .ok { s with capsuleMintFee := fee, events := s.events ++ [.CapsuleMintFeeSet fee] }

/-- Modelled from the spec: `set_capsule_offchaindata` — replace the capsule
payload record of an idle capsule; the payload-kind check comes after the
flag guards, per the uniform guard order. -/
def set_capsule_offchaindata (s : Chain) (origin : Origin)
    (nft_id offchain : Nat) : Except Err Chain :=
  match origin with
  | .root => .error .BadOrigin
  | .signed caller =>
    match s.nfts nft_id with
    | none => .error .NFTNotFound
    | some nft =>
      if nft.owner ≠ caller then .error .NotTheNFTOwner
      else if nft.state.is_listed then .error .CannotSetOffchainDataForListedNFTs
      else if nft.state.is_rented then .error .CannotSetOffchainDataForRentedNFTs
      else if nft.state.is_delegated then .error .CannotSetOffchainDataForDelegatedNFTs
      else if nft.state.is_syncing_secret then
        .error .CannotSetOffchainDataForSyncingNFTs
      else if nft.state.is_syncing_capsule then
        .error .CannotSetOffchainDataForSyncingCapsules
      else if nft.state.is_capsule = false then .error .NFTIsNotCapsule
      else
        .ok { s with
          capsuleOffchain := mupdate s.capsuleOffchain nft_id (some offchain),
          events := s.events ++ [.CapsuleOffchainDataSet nft_id] }

/-- Modelled from the spec: `add_capsule_shard` — capsule-side acknowledgment,
mirror image of `add_secret_shard`. -/
def add_capsule_shard (s : Chain) (origin : Origin) (nft_id : Nat) :
    Except Err Chain :=
  match origin with
  | .root => .error .BadOrigin
  | .signed caller =>
    match ensure_enclave s caller with
    | none => .error .NotARegisteredEnclave
    | some (cluster_id, operator) =>
      match s.nfts nft_id with
      | none => .error .NFTNotFound
      | some nft =>
        if nft.state.is_capsule = false then .error .NFTIsNotCapsule
        else if nft.state.is_syncing_capsule = false then .error .NFTAlreadySynced
        else
          let sess := (s.capsuleShards nft_id).getD ⟨cluster_id, []⟩
          if sess.ackedBy.contains operator then .error .EnclaveAlreadyAddedShard
          else if sess.clusterId ≠ cluster_id then .error .ShareNotFromValidCluster
          else
            let acked := sess.ackedBy ++ [operator]
            if sameSet acked (clusterMembers s sess.clusterId) then
              .ok { s with
                capsuleShards := mupdate s.capsuleShards nft_id none,
                nfts := mupdate s.nfts nft_id
                  (some { nft with state :=
                    { nft.state with is_syncing_capsule := false } }),
                events := s.events ++ [.CapsuleShardAdded nft_id caller, .CapsuleSynced nft_id] }
            else
              .ok { s with
                capsuleShards := mupdate s.capsuleShards nft_id (some ⟨sess.clusterId, acked⟩),
                events := s.events ++ [.CapsuleShardAdded nft_id caller] }

/-- Modelled from the spec: `notify_enclave_key_update` — re-open the
capsule hand-off of an idle capsule; no precondition on the enclave/cluster
registry state. -/
def notify_enclave_key_update (s : Chain) (origin : Origin) (nft_id : Nat) :
    Except Err Chain :=
  match origin with
  | .root => .error .BadOrigin
  | .signed caller =>
    match s.nfts nft_id with
    | none => .error .NFTNotFound
    | some nft =>
      if nft.owner ≠ caller then .error .NotTheNFTOwner
      else if nft.state.is_listed then .error .CannotChangeKeyForListedNFTs
      else if nft.state.is_rented then .error .CannotChangeKeyForRentedNFTs
      else if nft.state.is_delegated then .error .CannotChangeKeyForDelegatedNFTs
      else if nft.state.is_syncing_secret then .error .CannotChangeKeyForSyncingNFTs
      else if nft.state.is_syncing_capsule then .error .CannotChangeKeyForSyncingCapsules
      else if nft.state.is_in_transmission then
        .error .CannotChangeKeyForNFTsInTransmission
      else if nft.state.is_capsule = false then .error .NFTIsNotCapsule
      else
        .ok { s with
          nfts := mupdate s.nfts nft_id
            (some { nft with state := { nft.state with is_syncing_capsule := true } }),
          events := s.events ++ [.CapsuleKeyUpdateNotified nft_id] }

end Ternoa

namespace Ternoa

/-- Modelled from the spec: `register_enclave` — file a pending registration;
an operator may not name itself as its enclave address, at most one pending
registration per operator, and an already assigned operator may not
re-register.  Addresses of pending registrations are not checked against
each other. -/
def register_enclave (s : Chain) (origin : Origin) (addr uri : Nat) :
    Except Err Chain :=
  match origin with
  | .root => .error .BadOrigin
  | .signed caller =>
    if caller = addr then .error .OperatorAndEnclaveAreSame
    else if (s.enclaveRegistrations caller).isSome then
      .error .RegistrationAlreadyExists
    else if (s.enclaveData caller).isSome then .error .OperatorAlreadyExists
    else
      .ok { s with
        enclaveRegistrations := mupdate s.enclaveRegistrations caller (some ⟨addr, uri⟩),
        events := s.events ++ [.EnclaveAddedForRegistration caller addr] }

/-- Modelled from the spec: `unregister_enclave` — an assigned operator joins
the capacity-bounded pending-unregistration queue; an unassigned operator
simply withdraws its pending registration. -/
def unregister_enclave (cfg : Config) (s : Chain) (origin : Origin) :
    Except Err Chain :=
  match origin with
  | .root => .error .BadOrigin
  | .signed caller =>
    match s.enclaveData caller with
    | some _ =>
      if s.enclaveUnregistrations.contains caller then
        .error .UnregistrationAlreadyExists
      else if cfg.unregistrationLimit ≤ s.enclaveUnregistrations.length then
        .error .UnregistrationLimitReached
      else
        .ok { s with
          enclaveUnregistrations := s.enclaveUnregistrations ++ [caller],
          events := s.events ++ [.MovedForUnregistration caller] }
    | none =>
      match s.enclaveRegistrations caller with
      | none => .error .RegistrationNotFound
      | some _ =>
        .ok { s with
          enclaveRegistrations := mupdate s.enclaveRegistrations caller none,
          events := s.events ++ [.RegistrationRemoved caller] }

/-- Modelled from the spec: `update_enclave` — an assigned operator files a
pending identity update; the requested address may not belong to a
different assigned enclave (the operator's own current address is allowed,
as the test suite's setups exercise). -/
def update_enclave (s : Chain) (origin : Origin) (addr uri : Nat) :
    Except Err Chain :=
  match origin with
  | .root => .error .BadOrigin
  | .signed caller =>
    if caller = addr then .error .OperatorAndEnclaveAreSame
    else
      match s.enclaveData caller with
      | none => .error .UpdateProhibitedForUnassignedEnclave
      | some _ =>
        if (s.enclaveUpdates caller).isSome then .error .UpdateRequestAlreadyExists
        else
          match s.enclaveAccountOperator addr with
          | some other =>
            if other ≠ caller then .error .EnclaveAddressAlreadyExists
            else
              .ok { s with
                enclaveUpdates := mupdate s.enclaveUpdates caller (some ⟨addr, uri⟩),
                events := s.events ++ [.MovedForUpdate caller addr] }
          | none =>
            .ok { s with
              enclaveUpdates := mupdate s.enclaveUpdates caller (some ⟨addr, uri⟩),
              events := s.events ++ [.MovedForUpdate caller addr] }

/-- Modelled from the spec: `cancel_update` — withdraw one's pending update
request. -/
def cancel_update (s : Chain) (origin : Origin) : Except Err Chain :=
  match origin with
  | .root => .error .BadOrigin
  | .signed caller =>
    match s.enclaveUpdates caller with
    | none => .error .UpdateRequestNotFound
    | some _ =>
      .ok { s with
        enclaveUpdates := mupdate s.enclaveUpdates caller none,
        events := s.events ++ [.UpdateRequestCancelled caller] }

/-- Modelled from the spec: `assign_enclave` (root) — promote a pending
registration to an assigned enclave in a cluster with free capacity; the
enclave address must be unique among currently assigned enclaves, and this
uniqueness rejection takes precedence over the cluster checks. -/
def assign_enclave (cfg : Config) (s : Chain) (origin : Origin)
    (operator cluster_id : Nat) : Except Err Chain :=
  match origin with
  | .signed _ => .error .BadOrigin
  | .root =>
    match s.enclaveRegistrations operator with
    | none => .error .RegistrationNotFound
    | some reg =>
      if (s.enclaveAccountOperator reg.enclave_address).isSome then
        .error .EnclaveAddressAlreadyExists
      else
        match s.clusterData cluster_id with
        | none => .error .ClusterNotFound
        | some cl =>
          if cfg.clusterSize ≤ cl.enclaves.length then .error .ClusterIsFull
          else
            .ok { s with
              enclaveData := mupdate s.enclaveData operator (some reg),
              enclaveAccountOperator :=
                mupdate s.enclaveAccountOperator reg.enclave_address (some operator),
              enclaveClusterId := mupdate s.enclaveClusterId operator (some cluster_id),
              clusterData := mupdate s.clusterData cluster_id
                (some ⟨cl.enclaves ++ [operator]⟩),
              enclaveRegistrations := mupdate s.enclaveRegistrations operator none,
              events := s.events ++ [.EnclaveAssigned operator cluster_id] }

/-- Modelled from the spec: `remove_registration` (root) — discard an
operator's pending registration, if any. -/
def remove_registration (s : Chain) (origin : Origin) (operator : Nat) :
    Except Err Chain :=
  match origin with
  | .signed _ => .error .BadOrigin
  | .root =>
    .ok { s with
      enclaveRegistrations := mupdate s.enclaveRegistrations operator none,
      events := s.events ++ [.RegistrationRemoved operator] }

/-- Modelled from the spec: `remove_update` (root) — discard an operator's
pending update request; succeeds and emits its event even when no request
exists, and touches no other operator's request. -/
def remove_update (s : Chain) (origin : Origin) (operator : Nat) :
    Except Err Chain :=
  match origin with
  | .signed _ => .error .BadOrigin
  | .root =>
    .ok { s with
      enclaveUpdates := mupdate s.enclaveUpdates operator none,
      events := s.events ++ [.UpdateRequestRemoved operator] }

/-- Modelled from the spec: `remove_enclave` (root) — atomically clear an
assigned enclave's record, reverse address mapping, cluster membership and
pending update/unregistration requests. -/
def remove_enclave (s : Chain) (origin : Origin) (operator : Nat) :
    Except Err Chain :=
  match origin with
  | .signed _ => .error .BadOrigin
  | .root =>
    match s.enclaveData operator with
    | none => .error .EnclaveNotFound
    | some e =>
      match s.enclaveClusterId operator with
      | none => .error .ClusterIdNotFound
      | some c =>
        .ok { s with
          enclaveData := mupdate s.enclaveData operator none,
          enclaveAccountOperator := mupdate s.enclaveAccountOperator e.enclave_address none,
          enclaveClusterId := mupdate s.enclaveClusterId operator none,
          enclaveUpdates := mupdate s.enclaveUpdates operator none,
          enclaveUnregistrations := s.enclaveUnregistrations.filter (fun a => a ≠ operator),
          clusterData := (match s.clusterData c with
            | some cl =>
              mupdate s.clusterData c (some ⟨cl.enclaves.filter (fun a => a ≠ operator)⟩)
            | none => s.clusterData),
          events := s.events ++ [.EnclaveRemoved operator] }

/-- Modelled from the spec: `force_update_enclave` (root) — directly replace
an assigned enclave's identity; the new address must not belong to any
currently assigned enclave, and the pending update request, if any, is
consumed. -/
def force_update_enclave (s : Chain) (origin : Origin)
    (operator addr uri : Nat) : Except Err Chain :=
  match origin with
  | .signed _ => .error .BadOrigin
  | .root =>
    if operator = addr then .error .OperatorAndEnclaveAreSame
    else
      match s.enclaveData operator with
      | none => .error .EnclaveNotFound
      | some old =>
        if (s.enclaveAccountOperator addr).isSome then
          .error .EnclaveAddressAlreadyExists
        else
          .ok { s with
            enclaveData := mupdate s.enclaveData operator (some ⟨addr, uri⟩),
            enclaveAccountOperator :=
              mupdate (mupdate s.enclaveAccountOperator old.enclave_address none)
                addr (some operator),
            enclaveUpdates := mupdate s.enclaveUpdates operator none,
            events := s.events ++ [.EnclaveUpdated operator addr] }

/-- Modelled from the spec: `create_cluster` (root) — new empty cluster. -/
def create_cluster (s : Chain) (origin : Origin) : Except Err Chain :=
  match origin with
  | .signed _ => .error .BadOrigin
  | .root =>
    .ok { s with
      nextClusterId := s.nextClusterId + 1,
      clusterData := mupdate s.clusterData s.nextClusterId (some ⟨[]⟩),
      events := s.events ++ [.ClusterAdded s.nextClusterId] }

/-- Modelled from the spec: `remove_cluster` (root) — delete an empty
cluster. -/
def remove_cluster (s : Chain) (origin : Origin) (cluster_id : Nat) :
    Except Err Chain :=
  match origin with
  | .signed _ => .error .BadOrigin
  | .root =>
    match s.clusterData cluster_id with
    | none => .error .ClusterNotFound
    | some cl =>
      if cl.enclaves ≠ [] then .error .ClusterIsNotEmpty
      else
        .ok { s with
          clusterData := mupdate s.clusterData cluster_id none,
          events := s.events ++ [.ClusterRemoved cluster_id] }

end Ternoa

namespace Ternoa

/-- The closed set of external operations of the two pallets, each carrying
its origin and arguments. -/
inductive Op where
  | createNFT (origin : Origin) (offchain royalty : Nat)
      (collection_id : Option Nat) (soulbound : Bool)
  | burnNFT (origin : Origin) (nft_id : Nat)
  | transferNFT (origin : Origin) (nft_id recipient : Nat)
  | delegateNFT (origin : Origin) (nft_id : Nat) (recipient : Option Nat)
  | setRoyalty (origin : Origin) (nft_id royalty : Nat)
  | setNFTMintFee (origin : Origin) (fee : Nat)
  | createCollection (origin : Origin) (offchain : Nat) (limit : Option Nat)
  | burnCollection (origin : Origin) (cid : Nat)
  | closeCollection (origin : Origin) (cid : Nat)
  | limitCollection (origin : Origin) (cid limit : Nat)
  | addNFTToCollection (origin : Origin) (nft_id cid : Nat)
  | setCollectionOffchainData (origin : Origin) (cid offchain : Nat)
  | addSecret (origin : Origin) (nft_id offchain : Nat)
  | createSecretNFT (origin : Origin) (offchain secret_offchain royalty : Nat)
      (collection_id : Option Nat) (soulbound : Bool)
  | setSecretNFTMintFee (origin : Origin) (fee : Nat)
  | addSecretShard (origin : Origin) (nft_id : Nat)
  | convertToCapsule (origin : Origin) (nft_id offchain : Nat)
  | createCapsule (origin : Origin) (offchain capsule_offchain royalty : Nat)
      (collection_id : Option Nat) (soulbound : Bool)
  | setCapsuleMintFee (origin : Origin) (fee : Nat)
  | setCapsuleOffchainData (origin : Origin) (nft_id offchain : Nat)
  | addCapsuleShard (origin : Origin) (nft_id : Nat)
  | notifyEnclaveKeyUpdate (origin : Origin) (nft_id : Nat)
  | registerEnclave (origin : Origin) (addr uri : Nat)
  | unregisterEnclave (origin : Origin)
  | updateEnclave (origin : Origin) (addr uri : Nat)
  | cancelUpdate (origin : Origin)
  | assignEnclave (origin : Origin) (operator cluster_id : Nat)
  | removeRegistration (origin : Origin) (operator : Nat)
  | removeUpdate (origin : Origin) (operator : Nat)
  | removeEnclave (origin : Origin) (operator : Nat)
  | forceUpdateEnclave (origin : Origin) (operator addr uri : Nat)
  | createCluster (origin : Origin)
  | removeCluster (origin : Origin) (cluster_id : Nat)

/-- Dispatch an operation to its model function. -/
def runOp (cfg : Config) (s : Chain) : Op → Except Err Chain
  | .createNFT o d r c sb => create_nft cfg s o d r c sb
  | .burnNFT o i => burn_nft s o i
  | .transferNFT o i rcp => transfer_nft s o i rcp
  | .delegateNFT o i rcp => delegate_nft s o i rcp
  | .setRoyalty o i r => set_royalty s o i r
  | .setNFTMintFee o f => set_nft_mint_fee s o f
  | .createCollection o d l => create_collection cfg s o d l
  | .burnCollection o c => burn_collection s o c
  | .closeCollection o c => close_collection s o c
  | .limitCollection o c l => limit_collection cfg s o c l
  | .addNFTToCollection o i c => add_nft_to_collection cfg s o i c
  | .setCollectionOffchainData o c d => set_collection_offchaindata s o c d
  | .addSecret o i d => add_secret cfg s o i d
  | .createSecretNFT o d sd r c sb => create_secret_nft cfg s o d sd r c sb
  | .setSecretNFTMintFee o f => set_secret_nft_mint_fee s o f
  | .addSecretShard o i => add_secret_shard s o i
  | .convertToCapsule o i d => convert_to_capsule cfg s o i d
  | .createCapsule o d cd r c sb => create_capsule cfg s o d cd r c sb
  | .setCapsuleMintFee o f => set_capsule_mint_fee s o f
  | .setCapsuleOffchainData o i d => set_capsule_offchaindata s o i d
  | .addCapsuleShard o i => add_capsule_shard s o i
  | .notifyEnclaveKeyUpdate o i => notify_enclave_key_update s o i
  | .registerEnclave o a u => register_enclave s o a u
  | .unregisterEnclave o => unregister_enclave cfg s o
  | .updateEnclave o a u => update_enclave s o a u
  | .cancelUpdate o => cancel_update s o
  | .assignEnclave o p c => assign_enclave cfg s o p c
  | .removeRegistration o p => remove_registration s o p
  | .removeUpdate o p => remove_update s o p
  | .removeEnclave o p => remove_enclave s o p
  | .forceUpdateEnclave o p a u => force_update_enclave s o p a u
  | .createCluster o => create_cluster s o
  | .removeCluster o c => remove_cluster s o c

/-- The transactional transition of one external call: on success the new
state, on any rejection the unchanged pre-state. -/
def applyOp (cfg : Config) (s : Chain) (op : Op) : Chain :=
  match runOp cfg s op with
  | .ok s' => s'
  | .error _ => s

/-- A genesis state with the given initial account balances (the test
runtime's `ExtBuilder` funds accounts at genesis; every storage map starts
empty). -/
def genesisWith (bal : Nat → Nat) : Chain :=
  { genesisChain with balances := bal }

/-- States reachable from a funded genesis through sequences of external
calls. -/
inductive Reachable (cfg : Config) : Chain → Prop where
  | genesis (bal : Nat → Nat) : Reachable cfg (genesisWith bal)
  | step {s : Chain} (op : Op) : Reachable cfg s → Reachable cfg (applyOp cfg s op)

end Ternoa

namespace Ternoa

/-- The observable state after an attempted call: the new state on success,
the unchanged pre-state on rejection. -/
def settle (s : Chain) : Except Err Chain → Chain
  | .ok s' => s'
  | .error _ => s

/-- Whether a call succeeded. -/
def isOk : Except Err Chain → Bool
  | .ok _ => true
  | .error _ => false

/-- A concrete configuration with the test runtime's proportions. -/
def cfgW : Config := ⟨5, 2, 1, 10⟩

/-- A concrete item record owned and created by account 1, with the given
flag set. -/
def nftW (st : NFTState) : NFTData := ⟨1, 1, 0, 100, none, st⟩

/-- A concrete chain whose item 0 carries the given flag set and where every
account has balance 1000. -/
def chainW (st : NFTState) : Chain :=
  { genesisChain with
    nextNFTId := 1,
    nfts := mupdate genesisChain.nfts 0 (some (nftW st)),
    balances := fun _ => 1000 }

/-- C5: on any rejected call nothing changes — the transactional transition
returns the pre-state verbatim (items, collections, flags, pending
requests, balances and all). -/
theorem claim_C5_error_atomicity (cfg : Config) (s : Chain) (op : Op) (e : Err)
    (h : runOp cfg s op = .error e) : applyOp cfg s op = s := by
  unfold applyOp
  rw [h]

/-- A chain where account 1 holds exactly one mint fee: paying it would
leave the account below the existential deposit. -/
def chainKA : Chain :=
  { genesisChain with balances := bupdate genesisChain.balances 1 10 }

/-- Witness for C5 at a concrete failing input: a mint whose fee would push
the caller below the existential deposit is rejected with `KeepAlive` and
leaves the state (balances included) untouched. -/
theorem claim_C5_error_atomicity_witness :
    runOp cfgW chainKA (.createNFT (.signed 1) 0 0 none false) = .error .KeepAlive ∧
      applyOp cfgW chainKA (.createNFT (.signed 1) 0 0 none false) = chainKA := by
  constructor
  · rfl
  · exact claim_C5_error_atomicity cfgW chainKA
      (.createNFT (.signed 1) 0 0 none false) .KeepAlive rfl

/-- C9: administrative `remove_update` always succeeds for any operator —
also one with no pending update request — emits the update-request-removed
event, clears (at most) that operator's request and touches no other
operator's pending update. -/
theorem claim_C9_remove_update_total (s : Chain) (operator : Nat) :
    ∃ s', remove_update s .root operator = .ok s' ∧
      s'.enclaveUpdates operator = none ∧
      (∀ o, o ≠ operator → s'.enclaveUpdates o = s.enclaveUpdates o) ∧
      s'.events = s.events ++ [.UpdateRequestRemoved operator] := by
  refine ⟨_, rfl, ?_, ?_, rfl⟩
  · simp [mupdate]
  · intro o ho
    simp [mupdate, ho]

/-- Witness for C9: operator 2 has no pending update, operator 1 does;
removing operator 2's request succeeds and operator 1's request survives. -/
theorem claim_C9_remove_update_total_witness :
    ∃ s', remove_update
        { genesisChain with enclaveUpdates := mupdate genesisChain.enclaveUpdates 1 (some ⟨7, 0⟩) }
        .root 2 = .ok s' ∧
      s'.enclaveUpdates 2 = none ∧ s'.enclaveUpdates 1 = some ⟨7, 0⟩ := by
  obtain ⟨s', h1, h2, h3, _⟩ := claim_C9_remove_update_total
    { genesisChain with enclaveUpdates := mupdate genesisChain.enclaveUpdates 1 (some ⟨7, 0⟩) } 2
  refine ⟨s', h1, h2, ?_⟩
  rw [h3 1 (by decide)]
  simp [mupdate]

/-- C10: for a capsule item of the caller with every forbidden flag clear,
`notify_enclave_key_update` succeeds and re-sets `is_syncing_capsule`; the
statement imposes no condition whatsoever on the enclave/cluster registry
fields, so it applies in particular when no cluster exists and no enclave
is registered or assigned. -/
theorem claim_C10_notify_no_registry_precondition (s : Chain)
    (caller nid : Nat) (nft : NFTData)
    (hn : s.nfts nid = some nft) (howner : nft.owner = caller)
    (hcap : nft.state.is_capsule = true)
    (hl : nft.state.is_listed = false) (hr : nft.state.is_rented = false)
    (hd : nft.state.is_delegated = false)
    (hss : nft.state.is_syncing_secret = false)
    (hsc : nft.state.is_syncing_capsule = false)
    (ht : nft.state.is_in_transmission = false) :
    notify_enclave_key_update s (.signed caller) nid =
      .ok { s with
        nfts := mupdate s.nfts nid
          (some { nft with state := { nft.state with is_syncing_capsule := true } }),
        events := s.events ++ [.CapsuleKeyUpdateNotified nid] } := by
  subst howner
  simp [notify_enclave_key_update, hn, hcap, hl, hr, hd, hss, hsc, ht]

/-- Witness for C10: a chain whose TEE registry is entirely empty and whose
item 0 is an idle capsule; the key-update notification succeeds. -/
theorem claim_C10_notify_no_registry_precondition_witness :
    notify_enclave_key_update
        (chainW ⟨true, false, false, false, false, false, false, false, false⟩)
        (.signed 1) 0 =
      .ok { chainW ⟨true, false, false, false, false, false, false, false, false⟩ with
        nfts := mupdate (chainW ⟨true, false, false, false, false, false, false, false, false⟩).nfts 0
          (some { nftW ⟨true, false, false, false, false, false, false, false, false⟩ with
            state := { (nftW ⟨true, false, false, false, false, false, false, false, false⟩).state with
              is_syncing_capsule := true } }),
        events := (chainW ⟨true, false, false, false, false, false, false, false, false⟩).events ++
          [.CapsuleKeyUpdateNotified 0] } :=
  claim_C10_notify_no_registry_precondition
    (chainW ⟨true, false, false, false, false, false, false, false, false⟩) 1 0
    (nftW ⟨true, false, false, false, false, false, false, false, false⟩)
    rfl rfl rfl rfl rfl rfl rfl rfl rfl

end Ternoa

namespace Ternoa

/-- A successful transfer certifies that none of the four access markers
was set. -/
theorem transfer_ok_flags {s : Chain} {o : Origin} {nid recipient : Nat}
    {s' : Chain} {nft : NFTData} (hn : s.nfts nid = some nft)
    (h : transfer_nft s o nid recipient = .ok s') :
    nft.state.is_listed = false ∧ nft.state.is_delegated = false ∧
      nft.state.is_rented = false ∧ nft.state.is_in_transmission = false := by
  cases o with
  | root => simp [transfer_nft] at h
  | signed caller =>
    simp only [transfer_nft, hn] at h
    repeat' split at h
    all_goals simp_all

/-- C2: while any of `is_listed`, `is_delegated`, `is_rented`,
`is_in_transmission` is set, `transfer_nft` never succeeds for any caller
and recipient and the whole state (owner included) is unchanged; and when
the caller is the owner, the recipient differs, and exactly that one of the
four markers is set, the rejection is the marker's own named error, for any
combination of the remaining five flags. -/
theorem claim_C2_no_transfer_while_marked (s : Chain) (nid : Nat)
    (nft : NFTData) (hn : s.nfts nid = some nft)
    (hflag : nft.state.is_listed = true ∨ nft.state.is_delegated = true ∨
      nft.state.is_rented = true ∨ nft.state.is_in_transmission = true) :
    (∀ o recipient s', transfer_nft s o nid recipient ≠ .ok s') ∧
    (∀ o recipient, settle s (transfer_nft s o nid recipient) = s) ∧
    (∀ recipient, recipient ≠ nft.owner →
      (nft.state.is_listed = true →
        transfer_nft s (.signed nft.owner) nid recipient =
          .error .CannotTransferListedNFTs) ∧
      (nft.state.is_listed = false → nft.state.is_delegated = true →
        transfer_nft s (.signed nft.owner) nid recipient =
          .error .CannotTransferDelegatedNFTs) ∧
      (nft.state.is_listed = false → nft.state.is_delegated = false →
        nft.state.is_rented = true →
        transfer_nft s (.signed nft.owner) nid recipient =
          .error .CannotTransferRentedNFTs) ∧
      (nft.state.is_listed = false → nft.state.is_delegated = false →
        nft.state.is_rented = false → nft.state.is_in_transmission = true →
        transfer_nft s (.signed nft.owner) nid recipient =
          .error .CannotTransferNFTsInTransmission)) := by
  have hnever : ∀ o recipient s', transfer_nft s o nid recipient ≠ .ok s' := by
    intro o recipient s' h
    obtain ⟨h1, h2, h3, h4⟩ := transfer_ok_flags hn h
    rcases hflag with hf | hf | hf | hf <;> simp_all
  refine ⟨hnever, ?_, ?_⟩
  · intro o recipient
    cases hres : transfer_nft s o nid recipient with
    | ok s' => exact absurd hres (hnever o recipient s')
    | error e => rfl
  · intro recipient hrec
    refine ⟨?_, ?_, ?_, ?_⟩
    · intro hl
      simp [transfer_nft, hn, hrec, hl]
    · intro hl hd
      simp [transfer_nft, hn, hrec, hl, hd]
    · intro hl hd hr
      simp [transfer_nft, hn, hrec, hl, hd, hr]
    · intro hl hd hr ht
      simp [transfer_nft, hn, hrec, hl, hd, hr, ht]

/-- Witness for C2: item 0 is rented (and soulbound, one of the other five
flags); a transfer attempt by the owner is rejected with the rented error
and the state is unchanged. -/
theorem claim_C2_no_transfer_while_marked_witness :
    (∀ s', transfer_nft
        (chainW ⟨false, false, false, false, true, false, true, false, false⟩)
        (.signed 1) 0 2 ≠ .ok s') ∧
      transfer_nft (chainW ⟨false, false, false, false, true, false, true, false, false⟩)
        (.signed 1) 0 2 = .error .CannotTransferRentedNFTs := by
  obtain ⟨h1, _, h3⟩ := claim_C2_no_transfer_while_marked
    (chainW ⟨false, false, false, false, true, false, true, false, false⟩) 0
    (nftW ⟨false, false, false, false, true, false, true, false, false⟩) rfl
    (by right; right; left; rfl)
  exact ⟨h1 (.signed 1) 2, (h3 2 (by decide)).2.2.1 rfl rfl rfl⟩

end Ternoa

namespace Ternoa

/-- C4: burning an item the caller owns, with no burn-forbidding marker set,
succeeds whatever the other records held: afterwards the item record, its
delegation record, both payload records and both shard-sync sessions are
gone, the item's id no longer appears in its collection's member list, and
the burned event is emitted. -/
theorem claim_C4_burn_removes_all (s : Chain) (nid : Nat) (nft : NFTData)
    (hn : s.nfts nid = some nft)
    (hl : nft.state.is_listed = false) (hd : nft.state.is_delegated = false)
    (hr : nft.state.is_rented = false) (ht : nft.state.is_in_transmission = false) :
    ∃ s', burn_nft s (.signed nft.owner) nid = .ok s' ∧
      s'.nfts nid = none ∧ s'.delegatedNFTs nid = none ∧
      s'.secretOffchain nid = none ∧ s'.secretShards nid = none ∧
      s'.capsuleOffchain nid = none ∧ s'.capsuleShards nid = none ∧
      (∀ cid col, nft.collection_id = some cid → s.collections cid = some col →
        ∃ col', s'.collections cid = some col' ∧ nid ∉ col'.nfts) ∧
      s'.events = s.events ++ [.NFTBurned nid] := by
  have hburn : burn_nft s (.signed nft.owner) nid = .ok
      { s with
        nfts := mupdate s.nfts nid none,
        delegatedNFTs := mupdate s.delegatedNFTs nid none,
        secretOffchain := mupdate s.secretOffchain nid none,
        secretShards := mupdate s.secretShards nid none,
        capsuleOffchain := mupdate s.capsuleOffchain nid none,
        capsuleShards := mupdate s.capsuleShards nid none,
        collections := (match nft.collection_id with
          | some cid =>
            (match s.collections cid with
             | some col =>
               mupdate s.collections cid
                 (some { col with nfts := col.nfts.filter (fun i => i ≠ nid) })
             | none => s.collections)
          | none => s.collections),
        events := s.events ++ [.NFTBurned nid] } := by
    simp [burn_nft, hn, hl, hd, hr, ht]
  refine ⟨_, hburn, ?_, ?_, ?_, ?_, ?_, ?_, ?_, rfl⟩
  · simp [mupdate]
  · simp [mupdate]
  · simp [mupdate]
  · simp [mupdate]
  · simp [mupdate]
  · simp [mupdate]
  · intro cid col hcid hcol
    refine ⟨{ col with nfts := col.nfts.filter (fun i => i ≠ nid) }, ?_, ?_⟩
    · simp only [hcid, hcol, mupdate]
      simp
    · simp [List.mem_filter]

/-- A syncing secret item of account 1 affiliated to collection 0. -/
def nftBurnW : NFTData :=
  ⟨1, 1, 0, 100, some 0, ⟨false, false, true, false, false, true, false, false, false⟩⟩

/-- A chain where item 0 is a syncing secret with delegation viewer record,
payload record and open session, and sits in collection 0's member list. -/
def chainBurnW : Chain :=
  { genesisChain with
    nextNFTId := 1,
    nfts := mupdate genesisChain.nfts 0 (some nftBurnW),
    delegatedNFTs := mupdate genesisChain.delegatedNFTs 0 (some 2),
    secretOffchain := mupdate genesisChain.secretOffchain 0 (some 9),
    secretShards := mupdate genesisChain.secretShards 0 (some ⟨0, [5]⟩),
    collections := mupdate genesisChain.collections 0 (some ⟨12, 0, none, false, [0, 3]⟩) }

/-- Witness for C4: item 0 is a syncing secret member of collection 0 with a
delegation viewer record and an open session; burning deletes every derived
record and drops the id from the collection. -/
theorem claim_C4_burn_removes_all_witness :
    ∃ s', burn_nft chainBurnW (.signed 1) 0 = .ok s' ∧
      s'.nfts 0 = none ∧ s'.secretOffchain 0 = none ∧ s'.secretShards 0 = none ∧
      ∃ col', s'.collections 0 = some col' ∧ 0 ∉ col'.nfts := by
  obtain ⟨s', hok, h1, _, h3, h4, _, _, h7, _⟩ :=
    claim_C4_burn_removes_all chainBurnW 0 nftBurnW rfl rfl rfl rfl rfl
  exact ⟨s', hok, h1, h3, h4, h7 0 ⟨12, 0, none, false, [0, 3]⟩ rfl rfl⟩

end Ternoa

namespace Ternoa

/-- C7: once a collection's limit is set, every further `limit_collection`
call by the owner fails with the limit-already-set error regardless of the
requested value; with the limit unset it fails when the requested limit is
below the member count or above the global maximum; and every failure
leaves the stored collection record — its limit in particular — unchanged. -/
theorem claim_C7_limit_collection (cfg : Config) (s : Chain) (cid : Nat)
    (col : Collection) (hcol : s.collections cid = some col) :
    (∀ l, col.limit.isSome = true →
      limit_collection cfg s (.signed col.owner) cid l =
        .error .CollectionLimitAlreadySet) ∧
    (∀ l, col.limit = none → col.is_closed = false → l < col.nfts.length →
      limit_collection cfg s (.signed col.owner) cid l =
        .error .CollectionHasTooManyNFTs) ∧
    (∀ l, col.limit = none → col.is_closed = false → col.nfts.length ≤ l →
      cfg.collectionSizeLimit < l →
      limit_collection cfg s (.signed col.owner) cid l =
        .error .CollectionLimitExceededMaximumAllowed) ∧
    (∀ o l e, limit_collection cfg s o cid l = .error e →
      (settle s (limit_collection cfg s o cid l)).collections cid = some col) := by
  refine ⟨?_, ?_, ?_, ?_⟩
  · intro l hset
    simp [limit_collection, hcol, hset]
  · intro l hset hcl hlt
    simp [limit_collection, hcol, hset, hcl, hlt]
  · intro l hset hcl hge hmax
    simp [limit_collection, hcol, hset, hcl, Nat.not_lt.mpr hge, hmax]
  · intro o l e herr
    rw [herr]
    exact hcol

/-- A chain with one already-limited collection owned by account 1. -/
def chainLimW : Chain :=
  { genesisChain with
    nextCollectionId := 1,
    collections := mupdate genesisChain.collections 0 (some ⟨1, 0, some 1, false, [0]⟩) }

/-- Witness for C7: collection 0 has limit 1; limiting it again to 3 fails
with the already-set error and the record keeps limit 1. -/
theorem claim_C7_limit_collection_witness :
    limit_collection cfgW chainLimW (.signed 1) 0 3 =
        .error .CollectionLimitAlreadySet ∧
      (settle chainLimW (limit_collection cfgW chainLimW (.signed 1) 0 3)).collections 0 =
        some ⟨1, 0, some 1, false, [0]⟩ := by
  obtain ⟨h1, _, _, h4⟩ := claim_C7_limit_collection cfgW chainLimW 0
    ⟨1, 0, some 1, false, [0]⟩ rfl
  have he := h1 3 rfl
  exact ⟨he, h4 (.signed 1) 3 .CollectionLimitAlreadySet he⟩

/-- C8: the uniform guard order on the claim's two example mutators — for
`set_royalty`: not-found dominates everything, the ownership rejection
dominates the creator check and all flag guards, and an owner who is not
the creator gets the creator error whatever the flags; for
`set_capsule_offchaindata`: a flag guard (listed) fires before the
payload-kind check, and the not-a-capsule rejection is reached only once
every flag guard has passed. -/
theorem claim_C8_guard_order (s : Chain) (caller nid r d : Nat) :
    (s.nfts nid = none → set_royalty s (.signed caller) nid r = .error .NFTNotFound) ∧
    (∀ nft, s.nfts nid = some nft → nft.owner ≠ caller →
      set_royalty s (.signed caller) nid r = .error .NotTheNFTOwner) ∧
    (∀ nft, s.nfts nid = some nft → nft.owner = caller → nft.creator ≠ caller →
      set_royalty s (.signed caller) nid r = .error .NotTheNFTCreator) ∧
    (s.nfts nid = none →
      set_capsule_offchaindata s (.signed caller) nid d = .error .NFTNotFound) ∧
    (∀ nft, s.nfts nid = some nft → nft.owner = caller →
      nft.state.is_listed = true →
      set_capsule_offchaindata s (.signed caller) nid d =
        .error .CannotSetOffchainDataForListedNFTs) ∧
    (∀ nft, s.nfts nid = some nft → nft.owner = caller →
      nft.state.is_listed = false → nft.state.is_rented = false →
      nft.state.is_delegated = false → nft.state.is_syncing_secret = false →
      nft.state.is_syncing_capsule = false → nft.state.is_capsule = false →
      set_capsule_offchaindata s (.signed caller) nid d = .error .NFTIsNotCapsule) := by
  refine ⟨?_, ?_, ?_, ?_, ?_, ?_⟩
  · intro hn; simp [set_royalty, hn]
  · intro nft hn ho; simp [set_royalty, hn, ho]
  · intro nft hn ho hc; simp [set_royalty, hn, ho, hc]
  · intro hn; simp [set_capsule_offchaindata, hn]
  · intro nft hn ho hl; simp [set_capsule_offchaindata, hn, ho, hl]
  · intro nft hn ho hl hr hd hss hsc hcap
    simp [set_capsule_offchaindata, hn, ho, hl, hr, hd, hss, hsc, hcap]

/-- Witness for C8: item 0 is owned by 1 and listed; account 2 calling
`set_royalty` hits the ownership error before the creator and flag errors,
and the owner calling `set_capsule_offchaindata` on the listed non-capsule
hits the listed guard before the payload-kind check. -/
theorem claim_C8_guard_order_witness :
    set_royalty (chainW ⟨false, true, false, false, false, false, false, false, false⟩)
        (.signed 2) 0 7 = .error .NotTheNFTOwner ∧
      set_capsule_offchaindata
        (chainW ⟨false, true, false, false, false, false, false, false, false⟩)
        (.signed 1) 0 7 = .error .CannotSetOffchainDataForListedNFTs := by
  obtain ⟨_, h2, _, _, h5, _⟩ := claim_C8_guard_order
    (chainW ⟨false, true, false, false, false, false, false, false, false⟩) 2 0 7 7
  obtain ⟨_, _, _, _, h5b, _⟩ := claim_C8_guard_order
    (chainW ⟨false, true, false, false, false, false, false, false, false⟩) 1 0 7 7
  exact ⟨h2 _ rfl (by decide), h5b _ rfl rfl rfl⟩

end Ternoa

namespace Ternoa

/-- C6: two pending registrations may carry the same enclave address, but
the address must be unique among assigned enclaves: `assign_enclave` and
`force_update_enclave` are rejected with `EnclaveAddressAlreadyExists`
whenever the requested address is the address of a currently assigned
enclave, and succeed when it is not (the other preconditions holding). -/
theorem claim_C6_assigned_address_unique (cfg : Config) :
    (∀ s a1 a2 addr u1 u2, a1 ≠ addr → a2 ≠ addr → a2 ≠ a1 →
      s.enclaveRegistrations a1 = none → s.enclaveRegistrations a2 = none →
      s.enclaveData a1 = none → s.enclaveData a2 = none →
      isOk (register_enclave s (.signed a1) addr u1) = true ∧
        isOk (register_enclave (settle s (register_enclave s (.signed a1) addr u1))
          (.signed a2) addr u2) = true) ∧
    (∀ s operator c reg, s.enclaveRegistrations operator = some reg →
      (s.enclaveAccountOperator reg.enclave_address).isSome = true →
      assign_enclave cfg s .root operator c = .error .EnclaveAddressAlreadyExists) ∧
    (∀ s operator c reg cl, s.enclaveRegistrations operator = some reg →
      s.enclaveAccountOperator reg.enclave_address = none →
      s.clusterData c = some cl → cl.enclaves.length < cfg.clusterSize →
      isOk (assign_enclave cfg s .root operator c) = true) ∧
    (∀ s operator addr u e, operator ≠ addr → s.enclaveData operator = some e →
      (s.enclaveAccountOperator addr).isSome = true →
      force_update_enclave s .root operator addr u =
        .error .EnclaveAddressAlreadyExists) ∧
    (∀ s operator addr u e, operator ≠ addr → s.enclaveData operator = some e →
      s.enclaveAccountOperator addr = none →
      isOk (force_update_enclave s .root operator addr u) = true) := by
  refine ⟨?_, ?_, ?_, ?_, ?_⟩
  · intro s a1 a2 addr u1 u2 h1 h2 h12 hr1 hr2 hd1 hd2
    have hs1 : register_enclave s (.signed a1) addr u1 = .ok
        { s with
          enclaveRegistrations := mupdate s.enclaveRegistrations a1 (some ⟨addr, u1⟩),
          events := s.events ++ [.EnclaveAddedForRegistration a1 addr] } := by
      simp [register_enclave, h1, hr1, hd1]
    rw [hs1]
    refine ⟨rfl, ?_⟩
    simp [settle, isOk, register_enclave, h2, mupdate, h12, hr2, hd2]
  · intro s operator c reg hreg hdup
    simp [assign_enclave, hreg, hdup]
  · intro s operator c reg cl hreg hfresh hcl hroom
    simp [isOk, assign_enclave, hreg, hfresh, hcl, Nat.not_le.mpr hroom]
  · intro s operator addr u e hne hdata hdup
    simp [force_update_enclave, hne, hdata, hdup]
  · intro s operator addr u e hne hdata hfresh
    simp [isOk, force_update_enclave, hne, hdata, hfresh]

/-- A chain where operator 1 is assigned with address 101 in cluster 0 and
operators 2 and 3 both hold pending registrations for address 101. -/
def chainTeeW : Chain :=
  { genesisChain with
    enclaveRegistrations :=
      mupdate (mupdate genesisChain.enclaveRegistrations 2 (some ⟨101, 0⟩)) 3 (some ⟨101, 0⟩),
    enclaveData := mupdate genesisChain.enclaveData 1 (some ⟨101, 0⟩),
    enclaveAccountOperator := mupdate genesisChain.enclaveAccountOperator 101 (some 1),
    enclaveClusterId := mupdate genesisChain.enclaveClusterId 1 (some 0),
    nextClusterId := 1,
    clusterData := mupdate genesisChain.clusterData 0 (some ⟨[1]⟩) }

/-- Witness for C6: two fresh operators may both register address 77, while
assigning operator 2 (pending address 101, already assigned to operator 1)
and force-updating operator 1 to address 101 (its own, still an assigned
address) are rejected. -/
theorem claim_C6_assigned_address_unique_witness :
    (isOk (register_enclave chainTeeW (.signed 8) 77 0) = true ∧
      isOk (register_enclave (settle chainTeeW (register_enclave chainTeeW (.signed 8) 77 0))
        (.signed 9) 77 0) = true) ∧
    assign_enclave cfgW chainTeeW .root 2 0 = .error .EnclaveAddressAlreadyExists ∧
    force_update_enclave chainTeeW .root 1 101 0 =
      .error .EnclaveAddressAlreadyExists := by
  obtain ⟨hreg, hassign, _, hforce, _⟩ := claim_C6_assigned_address_unique cfgW
  refine ⟨hreg chainTeeW 8 9 77 0 0 (by decide) (by decide) (by decide) rfl rfl rfl rfl,
    hassign chainTeeW 2 0 ⟨101, 0⟩ rfl rfl, hforce chainTeeW 1 101 0 ⟨101, 0⟩ (by decide) rfl rfl⟩

end Ternoa

namespace Ternoa

/-- C1: behaviour of an acknowledgment on an open shard-sync session (secret
and capsule alike).  With the calling enclave resolving to `(cid,
operator)` and the item's session being `sess` (an absent record counts as
the empty session snapshotted at the caller's cluster): a duplicate
operator is rejected with `EnclaveAlreadyAddedShard`; an operator whose
cluster differs from the session's snapshot is rejected with
`ShareNotFromValidCluster` (rejections change nothing, the call returning
an error); and an accepted acknowledgment completes the session — shard set
deleted, syncing flag cleared, synced event emitted last — exactly when the
resulting set of distinct acknowledging operators equals the live
membership of the snapshotted cluster, otherwise it merely records the
operator. -/
theorem claim_C1_shard_sync :
    (∀ s caller cid operator nid nft sess,
      ensure_enclave s caller = some (cid, operator) →
      s.nfts nid = some nft →
      nft.state.is_secret = true → nft.state.is_syncing_secret = true →
      (s.secretShards nid).getD ⟨cid, []⟩ = sess →
      (sess.ackedBy.contains operator = true →
        add_secret_shard s (.signed caller) nid = .error .EnclaveAlreadyAddedShard) ∧
      (sess.ackedBy.contains operator = false → sess.clusterId ≠ cid →
        add_secret_shard s (.signed caller) nid = .error .ShareNotFromValidCluster) ∧
      (sess.ackedBy.contains operator = false → sess.clusterId = cid →
        (sameSet (sess.ackedBy ++ [operator]) (clusterMembers s cid) = true →
          add_secret_shard s (.signed caller) nid = .ok
            { s with
              secretShards := mupdate s.secretShards nid none,
              nfts := mupdate s.nfts nid
                (some { nft with state := { nft.state with is_syncing_secret := false } }),
              events := s.events ++ [.ShardAdded nid caller, .SecretNFTSynced nid] }) ∧
        (sameSet (sess.ackedBy ++ [operator]) (clusterMembers s cid) = false →
          add_secret_shard s (.signed caller) nid = .ok
            { s with
              secretShards := mupdate s.secretShards nid
                (some ⟨cid, sess.ackedBy ++ [operator]⟩),
              events := s.events ++ [.ShardAdded nid caller] }))) ∧
    (∀ s caller cid operator nid nft sess,
      ensure_enclave s caller = some (cid, operator) →
      s.nfts nid = some nft →
      nft.state.is_capsule = true → nft.state.is_syncing_capsule = true →
      (s.capsuleShards nid).getD ⟨cid, []⟩ = sess →
      (sess.ackedBy.contains operator = true →
        add_capsule_shard s (.signed caller) nid = .error .EnclaveAlreadyAddedShard) ∧
      (sess.ackedBy.contains operator = false → sess.clusterId ≠ cid →
        add_capsule_shard s (.signed caller) nid = .error .ShareNotFromValidCluster) ∧
      (sess.ackedBy.contains operator = false → sess.clusterId = cid →
        (sameSet (sess.ackedBy ++ [operator]) (clusterMembers s cid) = true →
          add_capsule_shard s (.signed caller) nid = .ok
            { s with
              capsuleShards := mupdate s.capsuleShards nid none,
              nfts := mupdate s.nfts nid
                (some { nft with state := { nft.state with is_syncing_capsule := false } }),
              events := s.events ++ [.CapsuleShardAdded nid caller, .CapsuleSynced nid] }) ∧
        (sameSet (sess.ackedBy ++ [operator]) (clusterMembers s cid) = false →
          add_capsule_shard s (.signed caller) nid = .ok
            { s with
              capsuleShards := mupdate s.capsuleShards nid
                (some ⟨cid, sess.ackedBy ++ [operator]⟩),
              events := s.events ++ [.CapsuleShardAdded nid caller] }))) := by
  constructor
  · intro s caller cid operator nid nft sess hens hn hsec hsync hsess
    refine ⟨?_, ?_, ?_⟩
    · intro hdup
      have hmem : operator ∈ sess.ackedBy := by simpa using hdup
      simp [add_secret_shard, hens, hn, hsec, hsync, hsess, hmem]
    · intro hdup hne
      have hmem : operator ∉ sess.ackedBy := by simpa using hdup
      simp [add_secret_shard, hens, hn, hsec, hsync, hsess, hmem, hne]
    · intro hdup hcid
      have hmem : operator ∉ sess.ackedBy := by simpa using hdup
      constructor
      · intro hfull
        simp [add_secret_shard, hens, hn, hsec, hsync, hsess, hmem, hcid, hfull]
      · intro hpart
        simp [add_secret_shard, hens, hn, hsec, hsync, hsess, hmem, hcid, hpart]
  · intro s caller cid operator nid nft sess hens hn hcap hsync hsess
    refine ⟨?_, ?_, ?_⟩
    · intro hdup
      have hmem : operator ∈ sess.ackedBy := by simpa using hdup
      simp [add_capsule_shard, hens, hn, hcap, hsync, hsess, hmem]
    · intro hdup hne
      have hmem : operator ∉ sess.ackedBy := by simpa using hdup
      simp [add_capsule_shard, hens, hn, hcap, hsync, hsess, hmem, hne]
    · intro hdup hcid
      have hmem : operator ∉ sess.ackedBy := by simpa using hdup
      constructor
      · intro hfull
        simp [add_capsule_shard, hens, hn, hcap, hsync, hsess, hmem, hcid, hfull]
      · intro hpart
        simp [add_capsule_shard, hens, hn, hcap, hsync, hsess, hmem, hcid, hpart]

/-- The secret item of `chainC1`. -/
def nftC1s : NFTData :=
  ⟨1, 1, 0, 100, none, ⟨false, false, true, false, false, true, false, false, false⟩⟩

/-- The capsule item of `chainC1`. -/
def nftC1c : NFTData :=
  ⟨1, 1, 0, 100, none, ⟨true, false, false, false, false, false, false, true, false⟩⟩

/-- A chain with cluster 0 = operators 1 and 2 (enclave addresses 101, 102),
cluster 1 = operator 3 (address 103); item 0 a syncing secret whose session
in cluster 0 already has operator 2's acknowledgment, item 1 a syncing
capsule whose session in cluster 0 has operator 1's acknowledgment. -/
def chainC1 : Chain :=
  { genesisChain with
    nextNFTId := 2,
    nfts := mupdate (mupdate genesisChain.nfts 0 (some nftC1s)) 1 (some nftC1c),
    secretShards := mupdate genesisChain.secretShards 0 (some ⟨0, [2]⟩),
    capsuleShards := mupdate genesisChain.capsuleShards 1 (some ⟨0, [1]⟩),
    enclaveAccountOperator :=
      mupdate (mupdate (mupdate genesisChain.enclaveAccountOperator
        101 (some 1)) 102 (some 2)) 103 (some 3),
    enclaveClusterId :=
      mupdate (mupdate (mupdate genesisChain.enclaveClusterId
        1 (some 0)) 2 (some 0)) 3 (some 1),
    nextClusterId := 2,
    clusterData :=
      mupdate (mupdate genesisChain.clusterData 0 (some ⟨[1, 2]⟩)) 1 (some ⟨[3]⟩) }

/-- Witness for C1: on `chainC1`, enclave 102 (operator 2, already acked) is
rejected as a duplicate; enclave 103 (operator 3, cluster 1 ≠ snapshot 0)
is rejected as not from the valid cluster on the capsule session; and
enclave 101 (operator 1) completes the secret session — set `{2, 1}` equals
cluster 0's membership `{1, 2}` — deleting the shard set, clearing
`is_syncing_secret` and emitting the synced event last. -/
theorem claim_C1_shard_sync_witness :
    add_secret_shard chainC1 (.signed 102) 0 = .error .EnclaveAlreadyAddedShard ∧
    add_capsule_shard chainC1 (.signed 103) 1 = .error .ShareNotFromValidCluster ∧
    isOk (add_secret_shard chainC1 (.signed 101) 0) = true ∧
    (settle chainC1 (add_secret_shard chainC1 (.signed 101) 0)).secretShards 0 = none ∧
    ((settle chainC1 (add_secret_shard chainC1 (.signed 101) 0)).nfts 0).map
      (fun n => n.state.is_syncing_secret) = some false ∧
    (settle chainC1 (add_secret_shard chainC1 (.signed 101) 0)).events.getLast? =
      some (.SecretNFTSynced 0) := by
  obtain ⟨hsec, hcap⟩ := claim_C1_shard_sync
  have h1 := (hsec chainC1 102 0 2 0 nftC1s ⟨0, [2]⟩ rfl rfl rfl rfl rfl).1 rfl
  have h2 := (hcap chainC1 103 1 3 1 nftC1c ⟨0, [1]⟩ rfl rfl rfl rfl rfl).2.1 rfl (by decide)
  have h3 := ((hsec chainC1 101 0 1 0 nftC1s ⟨0, [2]⟩ rfl rfl rfl rfl rfl).2.2 rfl rfl).1 rfl
  refine ⟨h1, h2, ?_, ?_, ?_, ?_⟩ <;> rw [h3] <;> simp [settle, isOk, mupdate, chainC1]

end Ternoa

namespace Ternoa

/-- The spec's item invariant on one flag set: a syncing payload implies the
corresponding payload kind. -/
def goodState (st : NFTState) : Prop :=
  (st.is_syncing_secret = true → st.is_secret = true) ∧
  (st.is_syncing_capsule = true → st.is_capsule = true)

/-- The invariant over the whole item storage. -/
def InvMap (m : Nat → Option NFTData) : Prop :=
  ∀ i d, m i = some d → goodState d.state

/-- The invariant over a chain state. -/
def Inv (s : Chain) : Prop := InvMap s.nfts

theorem invMap_update_some {m : Nat → Option NFTData} {k : Nat} {d : NFTData}
    (h : InvMap m) (hd : goodState d.state) : InvMap (mupdate m k (some d)) := by
  intro i x hx
  unfold mupdate at hx
  split at hx
  · injection hx with hx
    subst hx
    exact hd
  · exact h i x hx

theorem invMap_update_none {m : Nat → Option NFTData} {k : Nat}
    (h : InvMap m) : InvMap (mupdate m k none) := by
  intro i x hx
  unfold mupdate at hx
  split at hx
  · exact Option.noConfusion hx
  · exact h i x hx

theorem inv_genesisWith (bal : Nat → Nat) : Inv (genesisWith bal) := by
  intro i d hd
  exact Option.noConfusion hd

set_option maxHeartbeats 3200000 in
/-- Every successful external call preserves the item invariant. -/
theorem inv_runOp {cfg : Config} {s : Chain} {op : Op} {s' : Chain}
    (h : runOp cfg s op = .ok s') (hs : Inv s) : Inv s' := by
  cases op with
  | createNFT o d r c sb =>
    cases o with
    | root => simp [runOp, create_nft] at h
    | signed caller =>
      simp only [runOp, create_nft] at h
      repeat' split at h
      all_goals cases h
      all_goals exact invMap_update_some hs ⟨id, id⟩
  | burnNFT o i =>
    cases o with
    | root => simp [runOp, burn_nft] at h
    | signed caller =>
      cases hn : s.nfts i with
      | none => simp [runOp, burn_nft, hn] at h
      | some nft =>
        simp only [runOp, burn_nft, hn] at h
        repeat' split at h
        all_goals cases h
        all_goals exact invMap_update_none hs
  | transferNFT o i r =>
    cases o with
    | root => simp [runOp, transfer_nft] at h
    | signed caller =>
      cases hn : s.nfts i with
      | none => simp [runOp, transfer_nft, hn] at h
      | some nft =>
        simp only [runOp, transfer_nft, hn] at h
        repeat' split at h
        all_goals cases h
        all_goals exact invMap_update_some hs (hs i nft hn)
  | delegateNFT o i r =>
    cases o with
    | root => simp [runOp, delegate_nft] at h
    | signed caller =>
      cases hn : s.nfts i with
      | none => simp [runOp, delegate_nft, hn] at h
      | some nft =>
        simp only [runOp, delegate_nft, hn] at h
        repeat' split at h
        all_goals cases h
        all_goals exact invMap_update_some hs (hs i nft hn)
  | setRoyalty o i r =>
    cases o with
    | root => simp [runOp, set_royalty] at h
    | signed caller =>
      cases hn : s.nfts i with
      | none => simp [runOp, set_royalty, hn] at h
      | some nft =>
        simp only [runOp, set_royalty, hn] at h
        repeat' split at h
        all_goals cases h
        all_goals exact invMap_update_some hs (hs i nft hn)
  | setNFTMintFee o f =>
    simp only [runOp, set_nft_mint_fee] at h
    repeat' split at h
    all_goals cases h
    all_goals exact hs
  | createCollection o d l =>
    simp only [runOp, create_collection] at h
    repeat' split at h
    all_goals cases h
    all_goals exact hs
  | burnCollection o c =>
    simp only [runOp, burn_collection] at h
    repeat' split at h
    all_goals cases h
    all_goals exact hs
  | closeCollection o c =>
    simp only [runOp, close_collection] at h
    repeat' split at h
    all_goals cases h
    all_goals exact hs
  | limitCollection o c l =>
    simp only [runOp, limit_collection] at h
    repeat' split at h
    all_goals cases h
    all_goals exact hs
  | addNFTToCollection o i c =>
    cases o with
    | root => simp [runOp, add_nft_to_collection] at h
    | signed caller =>
      cases hcol : s.collections c with
      | none => simp [runOp, add_nft_to_collection, hcol] at h
      | some col =>
        cases hn : s.nfts i with
        | none =>
          simp only [runOp, add_nft_to_collection, hcol, hn] at h
          repeat' split at h
          all_goals cases h
        | some nft =>
          simp only [runOp, add_nft_to_collection, hcol, hn] at h
          repeat' split at h
          all_goals cases h
          all_goals exact invMap_update_some hs (hs i nft hn)
  | setCollectionOffchainData o c d =>
    simp only [runOp, set_collection_offchaindata] at h
    repeat' split at h
    all_goals cases h
    all_goals exact hs
  | addSecret o i d =>
    cases o with
    | root => simp [runOp, add_secret] at h
    | signed caller =>
      cases hn : s.nfts i with
      | none => simp [runOp, add_secret, hn] at h
      | some nft =>
        simp only [runOp, add_secret, hn] at h
        repeat' split at h
        all_goals cases h
        all_goals exact invMap_update_some hs ⟨fun _ => rfl, (hs i nft hn).2⟩
  | createSecretNFT o d sd r c sb =>
    cases o with
    | root => simp [runOp, create_secret_nft] at h
    | signed caller =>
      simp only [runOp, create_secret_nft] at h
      repeat' split at h
      all_goals cases h
      all_goals exact invMap_update_some hs ⟨id, id⟩
  | setSecretNFTMintFee o f =>
    simp only [runOp, set_secret_nft_mint_fee] at h
    repeat' split at h
    all_goals cases h
    all_goals exact hs
  | addSecretShard o i =>
    cases o with
    | root => simp [runOp, add_secret_shard] at h
    | signed caller =>
      cases hn : s.nfts i with
      | none =>
        simp only [runOp, add_secret_shard, hn] at h
        repeat' split at h
        all_goals cases h
      | some nft =>
        simp only [runOp, add_secret_shard, hn] at h
        repeat' split at h
        all_goals cases h
        · apply invMap_update_some hs
          refine ⟨fun hc => ?_, (hs i nft hn).2⟩
          simp at hc
        · exact hs
  | convertToCapsule o i d =>
    cases o with
    | root => simp [runOp, convert_to_capsule] at h
    | signed caller =>
      cases hn : s.nfts i with
      | none => simp [runOp, convert_to_capsule, hn] at h
      | some nft =>
        simp only [runOp, convert_to_capsule, hn] at h
        repeat' split at h
        all_goals cases h
        all_goals exact invMap_update_some hs ⟨(hs i nft hn).1, fun _ => rfl⟩
  | createCapsule o d cd r c sb =>
    cases o with
    | root => simp [runOp, create_capsule] at h
    | signed caller =>
      simp only [runOp, create_capsule] at h
      repeat' split at h
      all_goals cases h
      all_goals exact invMap_update_some hs ⟨id, id⟩
  | setCapsuleMintFee o f =>
    simp only [runOp, set_capsule_mint_fee] at h
    repeat' split at h
    all_goals cases h
    all_goals exact hs
  | setCapsuleOffchainData o i d =>
    simp only [runOp, set_capsule_offchaindata] at h
    repeat' split at h
    all_goals cases h
    all_goals exact hs
  | addCapsuleShard o i =>
    cases o with
    | root => simp [runOp, add_capsule_shard] at h
    | signed caller =>
      cases hn : s.nfts i with
      | none =>
        simp only [runOp, add_capsule_shard, hn] at h
        repeat' split at h
        all_goals cases h
      | some nft =>
        simp only [runOp, add_capsule_shard, hn] at h
        repeat' split at h
        all_goals cases h
        · apply invMap_update_some hs
          refine ⟨(hs i nft hn).1, fun hc => ?_⟩
          simp at hc
        · exact hs
  | notifyEnclaveKeyUpdate o i =>
    cases o with
    | root => simp [runOp, notify_enclave_key_update] at h
    | signed caller =>
      cases hn : s.nfts i with
      | none => simp [runOp, notify_enclave_key_update, hn] at h
      | some nft =>
        simp only [runOp, notify_enclave_key_update, hn] at h
        repeat' split at h
        all_goals cases h
        rename_i hcap
        refine invMap_update_some hs ⟨(hs i nft hn).1, fun _ => ?_⟩
        simpa using hcap
  | registerEnclave o a u =>
    simp only [runOp, register_enclave] at h
    repeat' split at h
    all_goals cases h
    all_goals exact hs
  | unregisterEnclave o =>
    simp only [runOp, unregister_enclave] at h
    repeat' split at h
    all_goals cases h
    all_goals exact hs
  | updateEnclave o a u =>
    simp only [runOp, update_enclave] at h
    repeat' split at h
    all_goals cases h
    all_goals exact hs
  | cancelUpdate o =>
    simp only [runOp, cancel_update] at h
    repeat' split at h
    all_goals cases h
    all_goals exact hs
  | assignEnclave o p c =>
    simp only [runOp, assign_enclave] at h
    repeat' split at h
    all_goals cases h
    all_goals exact hs
  | removeRegistration o p =>
    simp only [runOp, remove_registration] at h
    repeat' split at h
    all_goals cases h
    all_goals exact hs
  | removeUpdate o p =>
    simp only [runOp, remove_update] at h
    repeat' split at h
    all_goals cases h
    all_goals exact hs
  | removeEnclave o p =>
    simp only [runOp, remove_enclave] at h
    repeat' split at h
    all_goals cases h
    all_goals exact hs
  | forceUpdateEnclave o p a u =>
    simp only [runOp, force_update_enclave] at h
    repeat' split at h
    all_goals cases h
    all_goals exact hs
  | createCluster o =>
    simp only [runOp, create_cluster] at h
    repeat' split at h
    all_goals cases h
    all_goals exact hs
  | removeCluster o c =>
    simp only [runOp, remove_cluster] at h
    repeat' split at h
    all_goals cases h
    all_goals exact hs

end Ternoa

namespace Ternoa

/-- C3: in every state reachable through the system's operations, every
stored item satisfies `is_syncing_secret ⇒ is_secret` and
`is_syncing_capsule ⇒ is_capsule`. -/
theorem claim_C3_syncing_implies_kind (cfg : Config) (s : Chain)
    (h : Reachable cfg s) :
    ∀ nid nft, s.nfts nid = some nft →
      (nft.state.is_syncing_secret = true → nft.state.is_secret = true) ∧
      (nft.state.is_syncing_capsule = true → nft.state.is_capsule = true) := by
  induction h with
  | genesis bal => exact inv_genesisWith bal
  | step op hr ih =>
    unfold applyOp
    cases hres : runOp cfg _ op with
    | ok s' => exact inv_runOp hres ih
    | error e => exact ih

/-- Witness for C3: the state reached from a funded genesis by minting one
item is reachable, and its item 0 (all sync flags false) satisfies both
implications. -/
theorem claim_C3_syncing_implies_kind_witness :
    ((NFTData.mk 1 1 0 0 none (NFTState.newDefault false)).state.is_syncing_secret = true →
      (NFTData.mk 1 1 0 0 none (NFTState.newDefault false)).state.is_secret = true) ∧
    ((NFTData.mk 1 1 0 0 none (NFTState.newDefault false)).state.is_syncing_capsule = true →
      (NFTData.mk 1 1 0 0 none (NFTState.newDefault false)).state.is_capsule = true) :=
  claim_C3_syncing_implies_kind cfgW
    (applyOp cfgW (genesisWith (fun _ => 1000)) (.createNFT (.signed 1) 0 0 none false))
    (Reachable.step _ (Reachable.genesis _)) 0
    (NFTData.mk 1 1 0 0 none (NFTState.newDefault false)) rfl

end Ternoa
